import Mathlib

/-!
Verification of the bialy core pipeline (backend/app/services) against its
specification.  The Python sources are shallowly embedded over exact
rationals: every numeric value that the service manipulates is a finite
float after validation, modelled as an element of ℚ.  External library
functions that the service calls (pandas' date parser, scipy's normal
quantile function, the square root inside pandas' rolling standard
deviation, and the strftime date formatter) are passed in as explicit
function parameters, so each theorem quantifies over the library's
behaviour; hypotheses state only the properties of those libraries that a
claim actually needs (for example that the square root of 0 is 0).
-/

namespace Bialy

/-! ## Data model (backend/app/models/forecast.py, anomaly.py) -/

/-- A Python float as it can appear in a DataPoint value: a finite number,
NaN, or an infinity.  Pydantic coerces the field to float, so a non-numeric
value cannot reach the validator; the finite payload is modelled exactly as
a rational. -/
inductive PyFloat where
  | fin (q : ℚ)
  | nan
  | inf (negative : Bool)
deriving DecidableEq, Repr

/-- Negation of the check math.isnan(v) or math.isinf(v) in validate_data. -/
def PyFloat.isFinite : PyFloat → Bool
  | .fin _ => true
  | .nan => false
  | .inf _ => false

/-- DataPoint from backend/app/models/forecast.py: a date string and a float
value. -/
structure DataPoint where
  date : String
  value : PyFloat
deriving DecidableEq, Repr

/-! ## Validator (data_processing.py, validate_data, lines 92-117)

pd.to_datetime is modelled as a parameter parse : String → Option ℤ: some t
is the normalized timestamp of a date that parses, none a date that raises.
-/

/-- First loop of validate_data: scan the points in order and fail at the
first value that is NaN or infinite.  (The isinstance check of the source
cannot fail, since the pydantic model has already coerced values to float.) -/
def checkValues : List DataPoint → Except String Unit
  | [] => .ok ()
  | p :: rest =>
    if p.value.isFinite then checkValues rest
    else .error ("Invalid value at " ++ p.date)

/-- The comprehension [pd.to_datetime(point.date) for point in data]: the
normalized dates in order, failing at the first date that does not parse. -/
def parseDates (parse : String → Option ℤ) : List DataPoint → Except String (List ℤ)
  | [] => .ok []
  | p :: rest =>
    match parse p.date with
    | none => .error "Invalid date format"
    | some d => (parseDates parse rest).map (fun ds => d :: ds)

/-- validate_data (data_processing.py lines 92-117): at least 2 points, every
value finite, every date parseable, no duplicate normalized dates.  The
duplicate test len(dates) != len(set(dates)) is rendered with dedup, whose
length is the cardinality of the set of normalized dates. -/
def validate_data (parse : String → Option ℤ) (data : List DataPoint) :
    Except String Unit :=
  if data.length < 2 then .error "Need at least 2 data points"
  else
    match checkValues data with
    | .error e => .error e
    | .ok _ =>
      match parseDates parse data with
      | .error e => .error e
      | .ok dates =>
        if dates.dedup.length ≠ dates.length then .error "Duplicate dates found in data"
        else .ok ()

/-! ## SeriesPreparer (data_processing.py, infer_frequency and
auto_detect_season_length)

The prepared frame's ds column is modelled as the list of its timestamps in
seconds (rationals: pandas timestamps have sub-second resolution), already
sorted ascending by prepare_dataframe. -/

/-- Consecutive differences df['ds'].diff().dropna() of the sorted timestamp
column, in seconds. -/
def diffs : List ℚ → List ℚ
  | a :: b :: rest => (b - a) :: diffs (b :: rest)
  | _ => []

/-- Median of a pandas Series: middle element of the sorted list for odd
length, mean of the two middle elements for even length. -/
def median (l : List ℚ) : ℚ :=
  let s := l.insertionSort (· ≤ ·)
  if l.length % 2 = 1 then s.getD (l.length / 2) 0
  else (s.getD (l.length / 2 - 1) 0 + s.getD (l.length / 2) 0) / 2

/-- Classification of the median gap (infer_frequency lines 50-67).  days is
timedelta.days, the floor of the gap in whole days; seconds is
total_seconds(). -/
def classify_gap (s : ℚ) : String :=
  let days : ℤ := ⌊s / 86400⌋
  if s < 3600 then "T"
  else if s < 86400 then "H"
  else if days ≤ 1 then "D"
  else if days ≤ 8 then "W"
  else if days ≤ 32 then "M"
  else if days ≤ 100 then "Q"
  else "Y"

/-- infer_frequency (data_processing.py lines 31-67) over the sorted
timestamp column: default to daily below 2 points, otherwise classify the
median consecutive gap. -/
def infer_frequency (ds : List ℚ) : String :=
  if ds.length < 2 then "D"
  else classify_gap (median (diffs ds))

/-- auto_detect_season_length (data_processing.py lines 70-89): the
freq_to_season dictionary lookup with default 7.  The df argument of the
source is unused by its body and is omitted. -/
def auto_detect_season_length (freq : String) : Nat :=
  if freq = "H" then 24
  else if freq = "D" then 7
  else if freq = "W" then 52
  else if freq = "M" then 12
  else if freq = "Q" then 4
  else if freq = "Y" then 1
  else 7

/-- Position of a frequency code on the fine-to-coarse scale
sub-hourly < hourly < daily < weekly < monthly < quarterly < yearly. -/
def freqRank (f : String) : Nat :=
  if f = "T" then 0
  else if f = "H" then 1
  else if f = "D" then 2
  else if f = "W" then 3
  else if f = "M" then 4
  else if f = "Q" then 5
  else 6

/-! ## StatsForecastService (statsforecast_service.py) -/

/-- The Literal['low', 'medium', 'high'] sensitivity of AnomalyRequest. -/
inductive Sensitivity where
  | low
  | medium
  | high
deriving DecidableEq, Repr

/-- The Literal['low', 'medium', 'high'] severity of AnomalyPoint. -/
inductive Severity where
  | low
  | medium
  | high
deriving DecidableEq, Repr

/-- Ordinal position of a severity tier. -/
def Severity.rank : Severity → Nat
  | .low => 0
  | .medium => 1
  | .high => 2

/-- SENSITIVITY_MAP of StatsForecastService (lines 35-39): sensitivity to
confidence level in percent. -/
def SENSITIVITY_MAP : Sensitivity → ℚ
  | .low => 90
  | .medium => 95
  | .high => 99

/-- ExpectedRange from backend/app/models/anomaly.py. -/
structure ExpectedRange where
  lower : ℚ
  upper : ℚ
deriving DecidableEq, Repr

/-- AnomalyPoint from backend/app/models/anomaly.py. -/
structure AnomalyPoint where
  date : String
  value : ℚ
  severity : Severity
  expectedRange : ExpectedRange
  deviation : ℚ
deriving DecidableEq, Repr

/-- ConfidenceBand from backend/app/models/anomaly.py. -/
structure ConfidenceBand where
  date : String
  lower : ℚ
  upper : ℚ
deriving DecidableEq, Repr

/-- AnomalyResponse from backend/app/models/anomaly.py. -/
structure AnomalyResponse where
  anomalies : List AnomalyPoint
  totalPoints : Nat
  anomalyCount : Nat
  anomalyRate : ℚ
  confidenceBands : Option (List ConfidenceBand)
  modelUsed : String
  sensitivity : Sensitivity
  computationTimeMs : ℚ
deriving DecidableEq, Repr

/-- _determine_severity (statsforecast_service.py lines 268-293).  The
sensitivity argument ranges over the request's Literal, so the source's else
branch is the high case. -/
def _determine_severity (deviation : ℚ) : Sensitivity → Severity
  | .low =>
    if deviation > 3 then .high
    else if deviation > 2 then .medium
    else .low
  | .medium =>
    if deviation > 2 then .high
    else if deviation > 3/2 then .medium
    else .low
  | .high =>
    if deviation > 3/2 then .high
    else if deviation > 1 then .medium
    else .low

/-- Mean of a list of rationals (pandas mean of a window). -/
def mean (l : List ℚ) : ℚ := l.sum / l.length

/-- Sample variance (pandas default ddof = 1) of a window; none models the
NaN that pandas' rolling std produces when the window holds fewer than 2
samples. -/
def sampleVar (l : List ℚ) : Option ℚ :=
  if l.length < 2 then none
  else some ((l.map (fun x => (x - mean l) ^ 2)).sum / (l.length - 1 : ℕ))

/-- Window of pandas rolling(window=W, center=True, min_periods=1) at label
i: pandas' FixedWindowIndexer with centering offset (W-1)/2 gives the
half-open index range [i + (W-1)/2 + 1 - W, i + (W-1)/2 + 1), clipped to the
series. -/
def windowSlice (values : List ℚ) (W i : Nat) : List ℚ :=
  let offset := (W - 1) / 2
  let start := i + offset + 1 - W
  let stop := min values.length (i + offset + 1)
  (values.drop start).take (stop - start)

/-- The rolling mean column (line 147); with min_periods=1 it is defined at
every label. -/
def rollingMean (values : List ℚ) (W : Nat) : List ℚ :=
  (List.range values.length).map (fun i => mean (windowSlice values W i))

/-- The rolling std column (line 148): the square root of the sample
variance of each window, none at labels whose window has one sample.
sqrtFn is the library's square root. -/
def rollingStd (sqrtFn : ℚ → ℚ) (values : List ℚ) (W : Nat) : List (Option ℚ) :=
  (List.range values.length).map (fun i => (sampleVar (windowSlice values W i)).map sqrtFn)

/-- Window sizing of detect_anomalies (lines 142-144):
window = min(season_length * 2, len(values)), widened to the whole series
when below 3. -/
def windowSize (season_length n : Nat) : Nat :=
  let w := min (season_length * 2) n
  if w < 3 then n else w

/-- z_score = stats.norm.ppf((1 + confidence_level / 100) / 2) (line 151),
with scipy's ppf as a parameter. -/
def zValue (ppf : ℚ → ℚ) (confidence_level : ℚ) : ℚ :=
  ppf ((1 + confidence_level / 100) / 2)

/-- One row of result_df as the loop of lines 164-200 reads it: the
formatted date, the value, the rolling mean, and the rolling std (none for
NaN).  A NaN std makes both bounds mean ± z*std NaN, so the row's bound pair
is defined exactly when its std is. -/
def detectRows (sqrtFn : ℚ → ℚ) (fmt : ℚ → String) (ds ys : List ℚ) (W : Nat) :
    List (String × ℚ × ℚ × Option ℚ) :=
  (List.range ys.length).map (fun i =>
    (fmt (ds.getD i 0), ys.getD i 0, (rollingMean ys W).getD i 0,
      (rollingStd sqrtFn ys W).getD i none))

/-- Deviation of a flagged value (lines 184-186): distance to the midpoint
of the bounds in units of half the bound range, 0 when the range is not
positive. -/
def deviationOf (actual lower upper : ℚ) : ℚ :=
  let range_size := upper - lower
  let mid_point := (upper + lower) / 2
  if range_size > 0 then |actual - mid_point| / (range_size / 2) else 0

/-- Body of the loop of detect_anomalies (lines 164-200) for one row: the
confidence band it appends (none when NaN bounds or bands not requested) and
the anomaly it appends (none when NaN bounds or the value is inside the
bounds). -/
def processRow (sensitivity : Sensitivity) (z : ℚ) (showConfidenceBands : Bool)
    (date : String) (y m : ℚ) (sd : Option ℚ) :
    Option ConfidenceBand × Option AnomalyPoint :=
  match sd with
  | none => (none, none)
  | some s =>
    let lower := m - z * s
    let upper := m + z * s
    let band := if showConfidenceBands then some ⟨date, lower, upper⟩ else none
    if y < lower ∨ y > upper then
      let deviation := deviationOf y lower upper
      (band, some ⟨date, y, _determine_severity deviation sensitivity, ⟨lower, upper⟩, deviation⟩)
    else (band, none)

/-- detect_anomalies (statsforecast_service.py lines 99-217).  ppf is
scipy's stats.norm.ppf, sqrtFn the square root used by pandas' rolling std,
fmt the strftime('%Y-%m-%d') formatter; ds and ys are the prepared frame's
timestamp and value columns (sorted, validated); t0 and t1 are the two
time.time() readings.  The AutoETS model object built at lines 124-132 is
never consulted by the rolling computation and has no observable effect
beyond model_name = 'AutoETS'. -/
def detect_anomalies (ppf sqrtFn : ℚ → ℚ) (fmt : ℚ → String) (ds ys : List ℚ)
    (sensitivity : Sensitivity) (seasonLength : Option Nat)
    (showConfidenceBands : Bool) (t0 t1 : ℚ) : AnomalyResponse :=
  let freq := infer_frequency ds
  let season_length := seasonLength.getD (auto_detect_season_length freq)
  let confidence_level := SENSITIVITY_MAP sensitivity
  let window := windowSize season_length ys.length
  let z := zValue ppf confidence_level
  let results := (detectRows sqrtFn fmt ds ys window).map
    (fun r => processRow sensitivity z showConfidenceBands r.1 r.2.1 r.2.2.1 r.2.2.2)
  let anomalies := results.filterMap Prod.snd
  let confidence_bands := results.filterMap Prod.fst
  let total_points := ys.length
  let anomaly_count := anomalies.length
  { anomalies := anomalies
    totalPoints := total_points
    anomalyCount := anomaly_count
    anomalyRate := if total_points > 0 then (anomaly_count : ℚ) / total_points else 0
    confidenceBands := if showConfidenceBands then some confidence_bands else none
    modelUsed := "AutoETS"
    sensitivity := sensitivity
    computationTimeMs := (t1 - t0) * 1000 }

/-! ## Model dispatch (_select_model, lines 219-235) -/

/-- A constructed statsforecast model object: the constructor records which
class was instantiated and the only argument passed to it. -/
inductive SFModel where
  | AutoARIMA (season_length : Nat)
  | AutoETS (season_length : Nat)
  | AutoTheta (season_length : Nat)
deriving DecidableEq, Repr

/-- _select_model (statsforecast_service.py lines 219-235): the dispatched
model object and the model-name string. -/
def _select_model (model_type : String) (season_length : Nat) : SFModel × String :=
  if model_type = "arima" ∨ model_type = "auto" then
    (.AutoARIMA season_length, "AutoARIMA")
  else if model_type = "ets" then
    (.AutoETS season_length, "AutoETS")
  else if model_type = "theta" then
    (.AutoTheta season_length, "AutoTheta")
  else
    (.AutoETS season_length, "AutoETS")

/-! ## Forecast extraction (_extract_forecast_data, lines 237-266) -/

/-- ForecastPoint from backend/app/models/forecast.py. -/
structure ForecastPoint where
  date : String
  value : ℚ
deriving DecidableEq, Repr

/-- The forecasts DataFrame returned by sf.forecast: the formatted dates of
its rows and its named numeric columns. -/
structure FDataFrame where
  ds : List String
  cols : List (String × List ℚ)

/-- Column lookup, none when the name is not among the frame's columns. -/
def FDataFrame.col? (df : FDataFrame) (name : String) : Option (List ℚ) :=
  (df.cols.find? (fun c => c.1 = name)).map Prod.snd

/-- The dynamically named key f'upper_{level}' or f'lower_{level}' of the
confidence_intervals dict (lines 263-264): the decimal rendering of the
level is injective, so the key is faithfully carried as the pair of the kind
and the level. -/
inductive CIKey where
  | upper (level : ℤ)
  | lower (level : ℤ)
deriving DecidableEq, Repr

/-- Name of the model's upper interval column for a level,
f'{model_name}-hi-{level}'. -/
def hiName (model_name : String) (level : ℤ) : String :=
  model_name ++ "-hi-" ++ toString level

/-- Name of the model's lower interval column for a level,
f'{model_name}-lo-{level}'. -/
def loName (model_name : String) (level : ℤ) : String :=
  model_name ++ "-lo-" ++ toString level

/-- Loop of lines 258-264: walk the requested levels in order; skip a level
whose upper column is absent, otherwise copy both columns into the mapping.
Reading the lower column is unguarded in the source, so an upper column
without its lower twin raises a KeyError, modelled as the error case. -/
def extractIntervals (df : FDataFrame) (model_name : String) :
    List ℤ → Except String (List (CIKey × List ℚ))
  | [] => .ok []
  | level :: rest =>
    match df.col? (hiName model_name level) with
    | none => extractIntervals df model_name rest
    | some his =>
      match df.col? (loName model_name level) with
      | none => .error "KeyError"
      | some los =>
        (extractIntervals df model_name rest).map
          (fun tail => (CIKey.upper level, his) :: (CIKey.lower level, los) :: tail)

/-- _extract_forecast_data (statsforecast_service.py lines 237-266): one
ForecastPoint per row from the model's point-estimate column, and the
confidence-interval mapping from the loop over requested levels.  Reading
row[model_name] raises when the column is absent. -/
def _extract_forecast_data (df : FDataFrame) (model_name : String)
    (confidence_levels : List ℤ) :
    Except String (List ForecastPoint × List (CIKey × List ℚ)) :=
  match df.col? model_name with
  | none => .error "KeyError"
  | some vals =>
    (extractIntervals df model_name confidence_levels).map
      (fun ci => ((df.ds.zip vals).map (fun r => ⟨r.1, r.2⟩), ci))

/-! ## Concrete inputs used to instantiate theorems -/

/-- End-to-end scenario 3 of the spec: 25 daily timestamps. -/
def constantDates : List ℚ := (List.range 25).map (fun i => 86400 * (i : ℚ))

/-- End-to-end scenario 3 of the spec: 25 points of constant value 50. -/
def constantValues : List ℚ := List.replicate 25 50

/-- A concrete stand-in for scipy's stats.norm.ppf with value 1 everywhere,
used to instantiate theorems that hold for every quantile function. -/
def ppfOne : ℚ → ℚ := fun _ => 1

/-- A concrete stand-in for the rolling std's square root with value 1
everywhere, used to instantiate theorems that hold for every root. -/
def sqrtOne : ℚ → ℚ := fun _ => 1

/-- A concrete stand-in for the rolling std's square root with value 0
everywhere; it sends 0 to 0 as any square root does. -/
def sqrtZero : ℚ → ℚ := fun _ => 0

/-- A concrete stand-in for the strftime formatter. -/
def fmtDay : ℚ → String := fun _ => "day"

/-- The anomaly that detect_anomalies produces on timestamps [0, 86400],
values [0, 4], medium sensitivity, season length 2, with ppfOne and sqrtOne:
at label 1 the centered window of size 2 holds both points, so the bounds
are 2 ± 1 and the value 4 exceeds the upper bound 3 with deviation 2. -/
def anomalyOne : AnomalyPoint := ⟨"day", 4, .medium, ⟨1, 3⟩, 2⟩

/-- A concrete forecasts frame with a point-estimate column and the interval
columns of level 95 only. -/
def dfOne : FDataFrame :=
  ⟨["a", "b"],
   [("AutoETS", [1, 2]), ("AutoETS-hi-95", [3, 4]), ("AutoETS-lo-95", [0, 1])]⟩

/-! ## Theorems -/

/-- checkValues accepts exactly the lists all of whose values are finite. -/
theorem checkValues_ok_iff (data : List DataPoint) :
    checkValues data = .ok () ↔ ∀ p ∈ data, p.value.isFinite = true := by
  induction data with
  | nil => simp [checkValues]
  | cons p rest ih =>
    by_cases h : p.value.isFinite
    · simp [checkValues, h, ih]
    · simp [checkValues, h]

/-- parseDates succeeds exactly when every date parses. -/
theorem parseDates_ok_iff (parse : String → Option ℤ) (data : List DataPoint) :
    (∃ ds, parseDates parse data = .ok ds) ↔
      ∀ p ∈ data, (parse p.date).isSome = true := by
  induction data with
  | nil => simp [parseDates]
  | cons p rest ih =>
    cases hp : parse p.date with
    | none => simp [parseDates, hp]
    | some d =>
      simp only [parseDates, hp, List.forall_mem_cons]
      constructor
      · rintro ⟨ds, hds⟩
        refine ⟨by simp [hp], ih.mp ?_⟩
        cases hrest : parseDates parse rest with
        | error e => rw [hrest] at hds; simp [Except.map] at hds
        | ok ds' => exact ⟨ds', rfl⟩
      · rintro ⟨-, hall⟩
        obtain ⟨ds', hds'⟩ := ih.mpr hall
        exact ⟨d :: ds', by simp [hds', Except.map]⟩

/-- The normalized dates parseDates returns are the parses of the input
dates, in order. -/
theorem parseDates_map (parse : String → Option ℤ) (data : List DataPoint)
    (ds : List ℤ) (h : parseDates parse data = .ok ds) :
    ds.map some = data.map (fun p => parse p.date) := by
  induction data generalizing ds with
  | nil =>
    simp only [parseDates] at h
    cases h
    simp
  | cons p rest ih =>
    simp only [parseDates] at h
    cases hp : parse p.date with
    | none => rw [hp] at h; cases h
    | some d =>
      rw [hp] at h
      cases hrest : parseDates parse rest with
      | error e => rw [hrest] at h; simp [Except.map] at h
      | ok ds' =>
        rw [hrest] at h
        simp only [Except.map] at h
        cases h
        simp [ih ds' hrest, hp]

/-- The dedup-length test of validate_data decides Nodup. -/
theorem dedup_length_eq_iff {α : Type} [DecidableEq α] (l : List α) :
    l.dedup.length = l.length ↔ l.Nodup := by
  constructor
  · intro h
    have he := (List.dedup_sublist l).eq_of_length h
    rw [← he]
    exact l.nodup_dedup
  · intro h
    rw [List.dedup_eq_self.mpr h]

/-- C1: for any behaviour of the date parser, the Validator accepts a series
if and only if it has at least 2 points, every value is a finite number,
every date parses, and the normalized dates are pairwise distinct; on any
other input it fails with a validation error and, being a pure function into
Except, produces no other effect. -/
theorem validate_data_spec (parse : String → Option ℤ) (data : List DataPoint) :
    (validate_data parse data = .ok () ↔
      (2 ≤ data.length ∧ (∀ p ∈ data, p.value.isFinite = true) ∧
        (∀ p ∈ data, (parse p.date).isSome = true) ∧
        (data.map (fun p => parse p.date)).Nodup)) ∧
    (validate_data parse data = .ok () ∨
      ∃ msg, validate_data parse data = .error msg) := by
  constructor
  · unfold validate_data
    rcases Nat.lt_or_ge data.length 2 with hlen | hlen
    · rw [if_pos hlen]
      constructor
      · intro h; cases h
      · rintro ⟨h2, -⟩; omega
    · rw [if_neg (by omega)]
      cases hcv : checkValues data with
      | error e =>
        have hnf : ¬ ∀ p ∈ data, p.value.isFinite = true := by
          rw [← checkValues_ok_iff]
          simp [hcv]
        constructor
        · intro h; cases h
        · rintro ⟨-, hfin, -⟩; exact absurd hfin hnf
      | ok u =>
        cases u
        have hfin : ∀ p ∈ data, p.value.isFinite = true :=
          (checkValues_ok_iff data).mp hcv
        cases hpd : parseDates parse data with
        | error e =>
          have hnp : ¬ ∀ p ∈ data, (parse p.date).isSome = true := by
            rw [← parseDates_ok_iff]
            rintro ⟨ds, hds⟩
            rw [hpd] at hds
            cases hds
          constructor
          · intro h; cases h
          · rintro ⟨-, -, hps, -⟩; exact absurd hps hnp
        | ok dates =>
          have hmap := parseDates_map parse data dates hpd
          have hps : ∀ p ∈ data, (parse p.date).isSome = true :=
            (parseDates_ok_iff parse data).mp ⟨dates, hpd⟩
          have hnodup : (data.map (fun p => parse p.date)).Nodup ↔ dates.Nodup := by
            rw [← hmap]
            exact List.nodup_map_iff (Option.some_injective ℤ)
          change (if dates.dedup.length ≠ dates.length then
              Except.error "Duplicate dates found in data"
            else (Except.ok () : Except String Unit)) = Except.ok () ↔ _
          by_cases hdup : dates.dedup.length = dates.length
          · rw [if_neg (by simpa using hdup)]
            constructor
            · intro _
              exact ⟨by omega, hfin, hps,
                hnodup.mpr ((dedup_length_eq_iff dates).mp hdup)⟩
            · intro _; rfl
          · rw [if_pos (by simpa using hdup)]
            constructor
            · intro h; cases h
            · rintro ⟨-, -, -, hnd⟩
              exact absurd ((dedup_length_eq_iff dates).mpr (hnodup.mp hnd)) hdup
  · cases h : validate_data parse data with
    | ok u => cases u; exact .inl rfl
    | error e => exact .inr ⟨e, rfl⟩

/-- C2 counterexample: a series with a 30-minute median gap is classified
sub-hourly ('T'), and its default season length is the generic default 7,
not the hourly default 24 the claim asserts. -/
theorem season_default_subhourly_cex :
    infer_frequency [0, 1800, 3600] = "T" ∧
    auto_detect_season_length (infer_frequency [0, 1800, 3600]) = 7 ∧
    (7 : ℕ) ≠ 24 := by
  have h : infer_frequency [0, 1800, 3600] = "T" := by
    norm_num [infer_frequency, diffs, median, classify_gap,
      List.insertionSort, List.orderedInsert]
  refine ⟨h, ?_, by norm_num⟩
  rw [h]
  rfl

/-- C2 amended: when the caller supplies no season length, the default is a
function of the inferred frequency alone, given by hourly→24, daily→7,
weekly→52, monthly→12, quarterly→4, yearly→1, with the sub-hourly code 'T'
and every other unrecognized frequency falling to the default 7 (not to the
hourly default). -/
theorem auto_detect_season_length_table (freq : String) :
    auto_detect_season_length "H" = 24 ∧
    auto_detect_season_length "D" = 7 ∧
    auto_detect_season_length "W" = 52 ∧
    auto_detect_season_length "M" = 12 ∧
    auto_detect_season_length "Q" = 4 ∧
    auto_detect_season_length "Y" = 1 ∧
    auto_detect_season_length "T" = 7 ∧
    (freq ≠ "H" → freq ≠ "D" → freq ≠ "W" → freq ≠ "M" → freq ≠ "Q" →
      freq ≠ "Y" → auto_detect_season_length freq = 7) := by
  refine ⟨rfl, rfl, rfl, rfl, rfl, rfl, rfl, fun h1 h2 h3 h4 h5 h6 => ?_⟩
  simp [auto_detect_season_length, h1, h2, h3, h4, h5, h6]

/-- C9: model dispatch is total in the selector: 'auto' and 'arima' build
AutoARIMA, 'ets' builds AutoETS, 'theta' builds AutoTheta, and every other
selector falls back to AutoETS; every dispatched model is parameterized by
the season length alone. -/
theorem select_model_total (model_type : String) (s : Nat) :
    _select_model "auto" s = (.AutoARIMA s, "AutoARIMA") ∧
    _select_model "arima" s = (.AutoARIMA s, "AutoARIMA") ∧
    _select_model "ets" s = (.AutoETS s, "AutoETS") ∧
    _select_model "theta" s = (.AutoTheta s, "AutoTheta") ∧
    (model_type ≠ "auto" → model_type ≠ "arima" → model_type ≠ "ets" →
      model_type ≠ "theta" → _select_model model_type s = (.AutoETS s, "AutoETS")) := by
  refine ⟨rfl, rfl, rfl, rfl, fun h1 h2 h3 h4 => ?_⟩
  simp [_select_model, h1, h2, h3, h4]

/-- C5: severity is the exact 3-tier step function of deviation given by the
per-sensitivity thresholds (low: above 3 high, above 2 medium, else low;
medium: above 2 high, above 1.5 medium, else low; high: above 1.5 high,
above 1 medium, else low), and for each fixed sensitivity the assigned
severity tier is monotone non-decreasing in deviation. -/
theorem determine_severity_spec :
    (∀ d : ℚ, _determine_severity d .low =
      (if 3 < d then .high else if 2 < d then .medium else .low)) ∧
    (∀ d : ℚ, _determine_severity d .medium =
      (if 2 < d then .high else if 3/2 < d then .medium else .low)) ∧
    (∀ d : ℚ, _determine_severity d .high =
      (if 3/2 < d then .high else if 1 < d then .medium else .low)) ∧
    (∀ (sens : Sensitivity) (d1 d2 : ℚ), d1 ≤ d2 →
      (_determine_severity d1 sens).rank ≤ (_determine_severity d2 sens).rank) := by
  refine ⟨fun d => rfl, fun d => rfl, fun d => rfl, fun sens d1 d2 h => ?_⟩
  cases sens <;> simp only [_determine_severity] <;> split_ifs <;>
    simp [Severity.rank] <;> linarith

/-- The rank of the classified frequency as an explicit increasing step
function of the median gap: the day-based thresholds of the source
correspond to the second boundaries 172800 (2 days), 777600 (9 days),
2851200 (33 days) and 8726400 (101 days). -/
theorem freqRank_classify_gap (s : ℚ) :
    freqRank (classify_gap s) =
      if s < 3600 then 0 else if s < 86400 then 1 else if s < 172800 then 2
      else if s < 777600 then 3 else if s < 2851200 then 4
      else if s < 8726400 then 5 else 6 := by
  have hfloor : ∀ k : ℤ, (⌊s / 86400⌋ ≤ k ↔ s < (k + 1) * 86400) := by
    intro k
    rw [Int.floor_le_iff, div_lt_iff₀ (by norm_num : (0:ℚ) < 86400)]
  have e1 : (⌊s / 86400⌋ ≤ 1) = (s < 172800) := by rw [hfloor 1]; norm_num
  have e8 : (⌊s / 86400⌋ ≤ 8) = (s < 777600) := by rw [hfloor 8]; norm_num
  have e32 : (⌊s / 86400⌋ ≤ 32) = (s < 2851200) := by rw [hfloor 32]; norm_num
  have e100 : (⌊s / 86400⌋ ≤ 100) = (s < 8726400) := by rw [hfloor 100]; norm_num
  simp only [classify_gap, e1, e8, e32, e100]
  split_ifs <;> rfl

/-- Classification by median gap never gets finer as the gap grows. -/
theorem classify_gap_monotone (s1 s2 : ℚ) (h : s1 ≤ s2) :
    freqRank (classify_gap s1) ≤ freqRank (classify_gap s2) := by
  rw [freqRank_classify_gap, freqRank_classify_gap]
  split_ifs <;> first | omega | linarith

/-- C7: frequency inference is monotonic in the median inter-point gap: of
two series of at least 2 points each, the one with the strictly smaller
median gap is never classified coarser on the scale
sub-hourly < hourly < daily < weekly < monthly < quarterly < yearly. -/
theorem infer_frequency_monotone (ds1 ds2 : List ℚ) (h1 : 2 ≤ ds1.length)
    (h2 : 2 ≤ ds2.length) (hm : median (diffs ds1) < median (diffs ds2)) :
    freqRank (infer_frequency ds1) ≤ freqRank (infer_frequency ds2) := by
  unfold infer_frequency
  rw [if_neg (by omega), if_neg (by omega)]
  exact classify_gap_monotone _ _ hm.le

/-- Witness for C7: an hourly-gapped pair of timestamps against a
daily-gapped pair. -/
theorem infer_frequency_monotone_witness :
    freqRank (infer_frequency [0, 3600]) ≤ freqRank (infer_frequency [0, 86400]) :=
  infer_frequency_monotone [0, 3600] [0, 86400] (by norm_num) (by norm_num)
    (by norm_num [median, diffs, List.insertionSort, List.orderedInsert])

/-- C3: the detector's anomaly list is exactly the per-row decisions over
the canonical series, and per row: with defined bounds a point is flagged if
and only if its value is strictly below the lower bound or strictly above
the upper bound (so a value equal to either bound is never flagged), and
with undefined (NaN) bounds a point is never flagged and contributes no
confidence band. -/
theorem detect_anomalies_flag_iff (ppf sqrtFn : ℚ → ℚ) (fmt : ℚ → String)
    (ds ys : List ℚ) (sens : Sensitivity) (sl : Option Nat) (sb : Bool)
    (t0 t1 : ℚ) :
    ((detect_anomalies ppf sqrtFn fmt ds ys sens sl sb t0 t1).anomalies =
      ((detectRows sqrtFn fmt ds ys
          (windowSize (sl.getD (auto_detect_season_length (infer_frequency ds)))
            ys.length)).map
        (fun r => processRow sens (zValue ppf (SENSITIVITY_MAP sens)) sb
          r.1 r.2.1 r.2.2.1 r.2.2.2)).filterMap Prod.snd) ∧
    (∀ (z : ℚ) (d : String) (y m s : ℚ),
      ((processRow sens z sb d y m (some s)).2.isSome = true ↔
        (y < m - z * s ∨ m + z * s < y))) ∧
    (∀ (z : ℚ) (d : String) (y m : ℚ),
      processRow sens z sb d y m none = (none, none)) := by
  refine ⟨rfl, fun z d y m s => ?_, fun z d y m => rfl⟩
  by_cases h : y < m - z * s ∨ y > m + z * s
  · simp [processRow, h]
  · simp [processRow, h]

/-- C4 counterexample: two runs of the anomaly detector on the same series
with the same parameters but distinct readings of the wall clock produce
AnomalyResult structures that are not identical: the computationTimeMs field
follows the clock. -/
theorem detect_anomalies_clock_cex :
    detect_anomalies ppfOne sqrtOne fmtDay [0, 86400] [0, 4] .medium (some 2)
        false 0 1 ≠
      detect_anomalies ppfOne sqrtOne fmtDay [0, 86400] [0, 4] .medium (some 2)
        false 0 2 := by
  intro h
  have hms := congrArg AnomalyResponse.computationTimeMs h
  simp only [detect_anomalies] at hms
  norm_num at hms

/-- C4 amended: every field of the AnomalyResult except computationTimeMs is
a pure function of the input series and parameters — two runs with the same
input and parameters agree bit-for-bit on anomalies, totalPoints,
anomalyCount, anomalyRate, confidenceBands, modelUsed and sensitivity —
while computationTimeMs is derived from the two clock readings and differs
whenever they do. -/
theorem detect_anomalies_deterministic_modulo_clock (ppf sqrtFn : ℚ → ℚ)
    (fmt : ℚ → String) (ds ys : List ℚ) (sens : Sensitivity)
    (sl : Option Nat) (sb : Bool) (t0 t1 t0' t1' : ℚ) :
    ((detect_anomalies ppf sqrtFn fmt ds ys sens sl sb t0 t1).anomalies =
      (detect_anomalies ppf sqrtFn fmt ds ys sens sl sb t0' t1').anomalies) ∧
    ((detect_anomalies ppf sqrtFn fmt ds ys sens sl sb t0 t1).totalPoints =
      (detect_anomalies ppf sqrtFn fmt ds ys sens sl sb t0' t1').totalPoints) ∧
    ((detect_anomalies ppf sqrtFn fmt ds ys sens sl sb t0 t1).anomalyCount =
      (detect_anomalies ppf sqrtFn fmt ds ys sens sl sb t0' t1').anomalyCount) ∧
    ((detect_anomalies ppf sqrtFn fmt ds ys sens sl sb t0 t1).anomalyRate =
      (detect_anomalies ppf sqrtFn fmt ds ys sens sl sb t0' t1').anomalyRate) ∧
    ((detect_anomalies ppf sqrtFn fmt ds ys sens sl sb t0 t1).confidenceBands =
      (detect_anomalies ppf sqrtFn fmt ds ys sens sl sb t0' t1').confidenceBands) ∧
    ((detect_anomalies ppf sqrtFn fmt ds ys sens sl sb t0 t1).modelUsed =
      (detect_anomalies ppf sqrtFn fmt ds ys sens sl sb t0' t1').modelUsed) ∧
    ((detect_anomalies ppf sqrtFn fmt ds ys sens sl sb t0 t1).sensitivity =
      (detect_anomalies ppf sqrtFn fmt ds ys sens sl sb t0' t1').sensitivity) ∧
    ((detect_anomalies ppf sqrtFn fmt ds ys sens sl sb t0 t1).computationTimeMs =
      (t1 - t0) * 1000) :=
  ⟨rfl, rfl, rfl, rfl, rfl, rfl, rfl, rfl⟩

/-- A rolling window over a constant series is itself constant. -/
theorem windowSlice_replicate (n W i : Nat) (c : ℚ) :
    ∃ k, windowSlice (List.replicate n c) W i = List.replicate k c := by
  refine ⟨(windowSlice (List.replicate n c) W i).length, ?_⟩
  rw [List.eq_replicate_iff]
  refine ⟨rfl, fun b hb => ?_⟩
  have hmem : b ∈ List.replicate n c := by
    simp only [windowSlice] at hb
    exact List.mem_of_mem_drop (List.mem_of_mem_take hb)
  exact List.eq_of_mem_replicate hmem

/-- Mean of a nonempty constant window. -/
theorem mean_replicate (k : Nat) (c : ℚ) (hk : k ≠ 0) :
    mean (List.replicate k c) = c := by
  have hk' : (k : ℚ) ≠ 0 := Nat.cast_ne_zero.mpr hk
  simp [mean, List.sum_replicate, nsmul_eq_mul]
  field_simp

/-- Sample variance of a constant window: undefined below 2 samples,
exactly 0 otherwise. -/
theorem sampleVar_replicate (k : Nat) (c : ℚ) :
    sampleVar (List.replicate k c) = if k < 2 then none else some 0 := by
  by_cases h : k < 2
  · simp [sampleVar, h]
  · have hk : k ≠ 0 := by omega
    simp [sampleVar, h, mean_replicate k c hk, List.map_replicate,
      List.sum_replicate]

/-- Index lookup of a mapped range. -/
theorem getD_map_range {α : Type} (f : ℕ → α) (n i : ℕ) (h : i < n) (d : α) :
    ((List.range n).map f).getD i d = f i := by
  simp [List.getD, List.getElem?_map, List.getElem?_range, h]

/-- On a constant series the detector flags nothing, whatever the window,
sensitivity, season length or clock, provided only that the library's square
root sends 0 to 0. -/
theorem detect_replicate_no_anomalies (ppf sqrtFn : ℚ → ℚ) (fmt : ℚ → String)
    (ds : List ℚ) (n : Nat) (c : ℚ) (sens : Sensitivity) (sl : Option Nat)
    (sb : Bool) (t0 t1 : ℚ) (hs : sqrtFn 0 = 0) :
    (detect_anomalies ppf sqrtFn fmt ds (List.replicate n c) sens sl sb t0 t1).anomalies
      = [] := by
  show (((detectRows sqrtFn fmt ds (List.replicate n c) _).map _).filterMap Prod.snd) = []
  rw [List.filterMap_eq_nil_iff]
  intro x hx
  rw [List.mem_map] at hx
  obtain ⟨r, hr, rfl⟩ := hx
  rw [detectRows, List.mem_map] at hr
  obtain ⟨i, hi, rfl⟩ := hr
  rw [List.mem_range] at hi
  set W := windowSize (sl.getD (auto_detect_season_length (infer_frequency ds)))
    (List.replicate n c).length with hW
  dsimp only
  rw [List.length_replicate] at hi
  have hy : (List.replicate n c).getD i 0 = c := by
    simp [List.getD, List.getElem?_replicate, hi]
  obtain ⟨k, hk⟩ := windowSlice_replicate n W i c
  have hm : (rollingMean (List.replicate n c) W).getD i 0
      = mean (List.replicate k c) := by
    rw [rollingMean, List.length_replicate, getD_map_range _ n i hi, hk]
  have hsd : (rollingStd sqrtFn (List.replicate n c) W).getD i none
      = (sampleVar (List.replicate k c)).map sqrtFn := by
    rw [rollingStd, List.length_replicate, getD_map_range _ n i hi, hk]
  rw [hy, hm, hsd, sampleVar_replicate]
  by_cases h2 : k < 2
  · rw [if_pos h2]
    rfl
  · rw [if_neg h2, mean_replicate k c (by omega)]
    simp [processRow, Option.map_some', hs, mul_zero]

/-- C6: on the spec's scenario-3 series — 25 points of constant value 50 —
the anomaly detector reports zero anomalies for every sensitivity: the
zero-width (or undefined) rolling bounds produce no flags; moreover the
deviation computation returns 0 on any zero-width range instead of dividing
by zero. -/
theorem detect_constant_no_anomalies (ppf sqrtFn : ℚ → ℚ) (fmt : ℚ → String)
    (sens : Sensitivity) (sb : Bool) (t0 t1 : ℚ) (hs : sqrtFn 0 = 0) :
    ((detect_anomalies ppf sqrtFn fmt constantDates constantValues sens none sb
        t0 t1).anomalies = [] ∧
      (detect_anomalies ppf sqrtFn fmt constantDates constantValues sens none sb
        t0 t1).anomalyCount = 0) ∧
    (∀ y b : ℚ, deviationOf y b b = 0) := by
  have h : (detect_anomalies ppf sqrtFn fmt constantDates constantValues sens
      none sb t0 t1).anomalies = [] := by
    show (detect_anomalies ppf sqrtFn fmt constantDates (List.replicate 25 50)
      sens none sb t0 t1).anomalies = []
    exact detect_replicate_no_anomalies ppf sqrtFn fmt constantDates 25 50
      sens none sb t0 t1 hs
  refine ⟨⟨h, ?_⟩, fun y b => ?_⟩
  · show (detect_anomalies ppf sqrtFn fmt constantDates constantValues sens
      none sb t0 t1).anomalies.length = 0
    rw [h]
    rfl
  · simp [deviationOf]

/-- Witness for C6 at a concrete square root. -/
theorem detect_constant_no_anomalies_witness :
    ((detect_anomalies ppfOne sqrtZero fmtDay constantDates constantValues
        .medium none true 0 0).anomalies = [] ∧
      (detect_anomalies ppfOne sqrtZero fmtDay constantDates constantValues
        .medium none true 0 0).anomalyCount = 0) ∧
    (∀ y b : ℚ, deviationOf y b b = 0) :=
  detect_constant_no_anomalies ppfOne sqrtZero fmtDay .medium true 0 0 rfl

/-- Arithmetic of the deviation formula at a flagged value: it is
non-negative, exceeds 1 whenever the range has positive width, and is 0
whenever the range has zero (or negative) width. -/
theorem deviationOf_props (y L U : ℚ) (hflag : y < L ∨ U < y) :
    0 ≤ deviationOf y L U ∧ (L < U → 1 < deviationOf y L U) ∧
      (U = L → deviationOf y L U = 0) := by
  unfold deviationOf
  by_cases hr : U - L > 0
  · rw [if_pos hr]
    have h2 : 0 < (U - L) / 2 := by linarith
    refine ⟨div_nonneg (abs_nonneg _) h2.le, fun _ => ?_, fun h => by exfalso; linarith⟩
    rw [lt_div_iff₀ h2, one_mul]
    rcases hflag with h | h
    · have hle : (U + L) / 2 - y ≤ |y - (U + L) / 2| := by
        rw [abs_sub_comm]
        exact le_abs_self _
      linarith
    · have hle : y - (U + L) / 2 ≤ |y - (U + L) / 2| := le_abs_self _
      linarith
  · rw [if_neg hr]
    exact ⟨le_refl 0, fun h => absurd h (by linarith), fun _ => rfl⟩

/-- Inversion of a flagged row: the anomaly it emits records the bounds
mean ± z·std, a value strictly outside them, and the deviation formula. -/
theorem processRow_some (sens : Sensitivity) (z : ℚ) (sb : Bool) (d : String)
    (y m : ℚ) (sd : Option ℚ) (a : AnomalyPoint)
    (h : (processRow sens z sb d y m sd).2 = some a) :
    ∃ s, sd = some s ∧
      a.expectedRange.lower = m - z * s ∧ a.expectedRange.upper = m + z * s ∧
      (y < m - z * s ∨ m + z * s < y) ∧
      a.deviation = deviationOf y (m - z * s) (m + z * s) := by
  cases sd with
  | none => simp [processRow] at h
  | some s =>
    by_cases hf : y < m - z * s ∨ y > m + z * s
    · refine ⟨s, rfl, ?_⟩
      simp only [processRow, if_pos hf] at h
      cases h
      exact ⟨rfl, rfl, hf, rfl⟩
    · simp [processRow, hf] at h

/-- C10: every anomaly the detector reports has non-negative deviation;
when its expected range has positive width the deviation strictly exceeds 1,
and when the range has zero width the deviation is exactly 0. -/
theorem anomaly_deviation_invariant (ppf sqrtFn : ℚ → ℚ) (fmt : ℚ → String)
    (ds ys : List ℚ) (sens : Sensitivity) (sl : Option Nat) (sb : Bool)
    (t0 t1 : ℚ) :
    ∀ a ∈ (detect_anomalies ppf sqrtFn fmt ds ys sens sl sb t0 t1).anomalies,
      0 ≤ a.deviation ∧
      (a.expectedRange.lower < a.expectedRange.upper → 1 < a.deviation) ∧
      (a.expectedRange.upper = a.expectedRange.lower → a.deviation = 0) := by
  intro a ha
  have ha' : a ∈ ((detectRows sqrtFn fmt ds ys
      (windowSize (sl.getD (auto_detect_season_length (infer_frequency ds)))
        ys.length)).map
      (fun r => processRow sens (zValue ppf (SENSITIVITY_MAP sens)) sb
        r.1 r.2.1 r.2.2.1 r.2.2.2)).filterMap Prod.snd := ha
  rw [List.mem_filterMap] at ha'
  obtain ⟨x, hx, hxa⟩ := ha'
  rw [List.mem_map] at hx
  obtain ⟨r, -, rfl⟩ := hx
  obtain ⟨s, -, hlo, hup, hflag, hdev⟩ := processRow_some _ _ _ _ _ _ _ _ hxa
  rw [hlo, hup, hdev]
  exact deviationOf_props _ _ _ hflag

/-- Witness for C10: the concrete flagged point anomalyOne of the two-point
run with season length 2. -/
theorem anomaly_deviation_invariant_witness :
    0 ≤ anomalyOne.deviation ∧
    (anomalyOne.expectedRange.lower < anomalyOne.expectedRange.upper →
      1 < anomalyOne.deviation) ∧
    (anomalyOne.expectedRange.upper = anomalyOne.expectedRange.lower →
      anomalyOne.deviation = 0) :=
  anomaly_deviation_invariant ppfOne sqrtOne fmtDay [0, 86400] [0, 4] .medium
    (some 2) false 0 0 anomalyOne
    (by
      have hw0 : windowSlice [0, 4] 2 0 = [0] := rfl
      have hw1 : windowSlice [0, 4] 2 1 = [0, 4] := rfl
      have hrm : rollingMean [0, 4] 2 = [0, 2] := by
        rw [rollingMean,
          show List.range (List.length [(0:ℚ), 4]) = [0, 1] from rfl,
          List.map_cons, List.map_cons, List.map_nil, hw0, hw1]
        norm_num [mean]
      have hv1 : sampleVar [(0:ℚ), 4] = some 8 := by
        norm_num [sampleVar, mean]
      have hrs : rollingStd sqrtOne [0, 4] 2 = [none, some 1] := by
        rw [rollingStd,
          show List.range (List.length [(0:ℚ), 4]) = [0, 1] from rfl,
          List.map_cons, List.map_cons, List.map_nil, hw0, hw1, hv1,
          show sampleVar [(0:ℚ)] = none from rfl]
        simp [sqrtOne]
      have hrows : detectRows sqrtOne fmtDay [0, 86400] [0, 4] 2 =
          [("day", 0, 0, none), ("day", 4, 2, some 1)] := by
        rw [detectRows,
          show List.range (List.length [(0:ℚ), 4]) = [0, 1] from rfl,
          List.map_cons, List.map_cons, List.map_nil]
        rw [hrm, hrs]
        simp [fmtDay]
      have hp1 : processRow .medium 1 false "day" 4 2 (some 1) =
          (none, some anomalyOne) := by
        norm_num [processRow, deviationOf, anomalyOne, _determine_severity]
      show anomalyOne ∈ ((detectRows sqrtOne fmtDay [0, 86400] [0, 4]
          (windowSize ((some 2 : Option Nat).getD
            (auto_detect_season_length (infer_frequency [0, 86400]))) 2)).map
          (fun r => processRow .medium (zValue ppfOne (SENSITIVITY_MAP .medium))
            false r.1 r.2.1 r.2.2.1 r.2.2.2)).filterMap Prod.snd
      rw [show windowSize ((some 2 : Option Nat).getD
            (auto_detect_season_length (infer_frequency [0, 86400]))) 2 = 2
          from rfl,
        hrows,
        show zValue ppfOne (SENSITIVITY_MAP .medium) = 1 from rfl,
        List.map_cons, List.map_cons, List.map_nil]
      dsimp only
      rw [show processRow .medium 1 false "day" 0 0 none =
          ((none : Option ConfidenceBand), (none : Option AnomalyPoint))
        from rfl, hp1]
      simp)

/-- Columns of a frame whose columns all have the row count are as long as
the date column. -/
theorem col_length (df : FDataFrame) (name : String) (l : List ℚ)
    (hlen : ∀ c ∈ df.cols, c.2.length = df.ds.length)
    (h : df.col? name = some l) : l.length = df.ds.length := by
  unfold FDataFrame.col? at h
  cases hf : df.cols.find? (fun c => c.1 = name) with
  | none => rw [hf] at h; cases h
  | some c =>
    rw [hf] at h
    cases h
    exact hlen c (List.mem_of_find?_eq_some hf)

/-- The interval loop succeeds whenever every exposed upper column has its
lower twin; the mapping it builds carries exactly the levels whose upper
column is present, each with its two columns. -/
theorem extractIntervals_spec (df : FDataFrame) (mn : String) (levels : List ℤ)
    (hpair : ∀ L ∈ levels, (df.col? (hiName mn L)).isSome = true →
      (df.col? (loName mn L)).isSome = true) :
    ∃ m, extractIntervals df mn levels = .ok m ∧
      (∀ e ∈ m, ∃ L' ∈ levels, (df.col? (hiName mn L')).isSome = true ∧
        (e.1 = CIKey.upper L' ∨ e.1 = CIKey.lower L')) ∧
      (∀ L ∈ levels, ∀ his los, df.col? (hiName mn L) = some his →
        df.col? (loName mn L) = some los →
        (CIKey.upper L, his) ∈ m ∧ (CIKey.lower L, los) ∈ m) := by
  induction levels with
  | nil => exact ⟨[], rfl, by simp, by simp⟩
  | cons level rest ih =>
    obtain ⟨m, hm, hmem, hins⟩ :=
      ih (fun L hL => hpair L (List.mem_cons_of_mem _ hL))
    cases hhi : df.col? (hiName mn level) with
    | none =>
      refine ⟨m, ?_, ?_, ?_⟩
      · rw [extractIntervals, hhi]
        exact hm
      · intro e he
        obtain ⟨L', hL', h1, h2⟩ := hmem e he
        exact ⟨L', List.mem_cons_of_mem _ hL', h1, h2⟩
      · intro L hL his los hhis hlos
        rcases List.mem_cons.mp hL with rfl | hL'
        · rw [hhi] at hhis; cases hhis
        · exact hins L hL' his los hhis hlos
    | some his =>
      have hlo := hpair level (List.mem_cons_self _ _) (by rw [hhi]; rfl)
      obtain ⟨los, hlos⟩ := Option.isSome_iff_exists.mp hlo
      refine ⟨(CIKey.upper level, his) :: (CIKey.lower level, los) :: m, ?_, ?_, ?_⟩
      · rw [extractIntervals, hhi, hlos, hm]
        rfl
      · intro e he
        rcases List.mem_cons.mp he with rfl | he'
        · exact ⟨level, List.mem_cons_self _ _, by rw [hhi]; rfl, .inl rfl⟩
        rcases List.mem_cons.mp he' with rfl | he''
        · exact ⟨level, List.mem_cons_self _ _, by rw [hhi]; rfl, .inr rfl⟩
        · obtain ⟨L', hL', h1, h2⟩ := hmem e he''
          exact ⟨L', List.mem_cons_of_mem _ hL', h1, h2⟩
      · intro L hL his' los' hhis' hlos'
        rcases List.mem_cons.mp hL with rfl | hL'
        · rw [hhi] at hhis'
          cases hhis'
          rw [hlos] at hlos'
          cases hlos'
          exact ⟨List.mem_cons_self _ _,
            List.mem_cons_of_mem _ (List.mem_cons_self _ _)⟩
        · have hboth := hins L hL' his' los' hhis' hlos'
          exact ⟨List.mem_cons_of_mem _ (List.mem_cons_of_mem _ hboth.1),
            List.mem_cons_of_mem _ (List.mem_cons_of_mem _ hboth.2)⟩

/-- C8: when the point-estimate column exists, every exposed upper column
has its lower twin, and all columns have the row count, extraction succeeds;
a requested level with no interval columns is silently omitted — neither an
upper nor a lower entry for it appears in the mapping — while every level
whose columns are present appears with both bound sequences, index-aligned
with the forecast sequence (equal lengths, copied by row order). -/
theorem extract_forecast_data_spec (df : FDataFrame) (mn : String)
    (levels : List ℤ)
    (hmodel : (df.col? mn).isSome = true)
    (hpair : ∀ L ∈ levels, (df.col? (hiName mn L)).isSome = true →
      (df.col? (loName mn L)).isSome = true)
    (hlen : ∀ c ∈ df.cols, c.2.length = df.ds.length) :
    ∃ pts m, _extract_forecast_data df mn levels = .ok (pts, m) ∧
      pts.length = df.ds.length ∧
      (∀ L ∈ levels, df.col? (hiName mn L) = none →
        ∀ v, (CIKey.upper L, v) ∉ m ∧ (CIKey.lower L, v) ∉ m) ∧
      (∀ L ∈ levels, ∀ his los, df.col? (hiName mn L) = some his →
        df.col? (loName mn L) = some los →
        (CIKey.upper L, his) ∈ m ∧ (CIKey.lower L, los) ∈ m ∧
        his.length = pts.length ∧ los.length = pts.length) := by
  obtain ⟨vals, hvals⟩ := Option.isSome_iff_exists.mp hmodel
  obtain ⟨m, hm, hmem, hins⟩ := extractIntervals_spec df mn levels hpair
  have hvlen : vals.length = df.ds.length := col_length df mn vals hlen hvals
  have hpts : ((df.ds.zip vals).map
      (fun r => (⟨r.1, r.2⟩ : ForecastPoint))).length = df.ds.length := by
    rw [List.length_map, List.length_zip, hvlen, min_self]
  refine ⟨_, m, ?_, hpts, ?_, ?_⟩
  · rw [_extract_forecast_data, hvals, hm]
    rfl
  · intro L hL hnone v
    constructor
    · intro hv
      obtain ⟨L', hL', hsome, hk⟩ := hmem _ hv
      rcases hk with hk | hk <;> simp only [CIKey.upper.injEq, CIKey.lower.injEq] at hk
      · subst hk
        rw [hnone] at hsome
        cases hsome
      · cases hk
    · intro hv
      obtain ⟨L', hL', hsome, hk⟩ := hmem _ hv
      rcases hk with hk | hk <;> simp only [CIKey.upper.injEq, CIKey.lower.injEq] at hk
      · cases hk
      · subst hk
        rw [hnone] at hsome
        cases hsome
  · intro L hL his los hhis hlos
    have hboth := hins L hL his los hhis hlos
    exact ⟨hboth.1, hboth.2, by rw [hpts]; exact col_length df _ his hlen hhis,
      by rw [hpts]; exact col_length df _ los hlen hlos⟩

/-- Witness for C8: a frame exposing interval columns for level 95 only,
with levels 95 and 80 requested. -/
theorem extract_forecast_data_spec_witness :
    ∃ pts m, _extract_forecast_data dfOne "AutoETS" [95, 80] = .ok (pts, m) ∧
      pts.length = dfOne.ds.length ∧
      (∀ L ∈ ([95, 80] : List ℤ), dfOne.col? (hiName "AutoETS" L) = none →
        ∀ v, (CIKey.upper L, v) ∉ m ∧ (CIKey.lower L, v) ∉ m) ∧
      (∀ L ∈ ([95, 80] : List ℤ), ∀ his los,
        dfOne.col? (hiName "AutoETS" L) = some his →
        dfOne.col? (loName "AutoETS" L) = some los →
        (CIKey.upper L, his) ∈ m ∧ (CIKey.lower L, los) ∈ m ∧
        his.length = pts.length ∧ los.length = pts.length) :=
  extract_forecast_data_spec dfOne "AutoETS" [95, 80] (by decide)
    (by decide) (by decide)

end Bialy
